import Mathlib

/-!
Shallow embedding of the doubt-session chat subsystem of the Lms_backend
repository, together with theorems settling the frozen claims about it.

The embedding covers:
* the `DoubtSession` and `ChatMessage` document schemas
  (`models/Doubt.js`, `models/ChatMessage.js`);
* the controller operations `initiateDoubtSession`, `sendDoubtMessage`,
  `closeDoubtSession`, `getDoubtSessionMessages`, `getTrainerDoubtSessions`
  (`utils/socket.js`, second document: `controllers/doubtController.js`);
* the authorization middleware `isParticipantInDoubtSession`
  (`middleware/authMiddleware.js`);
* the Simulated Responder: the `setTimeout` callbacks scheduled by the
  initiate and send operations, modelled as explicit pending-task records
  that a separate `fireAiTask` step consumes.

JavaScript truthiness of strings is modelled by emptiness: a missing or
empty string argument is the empty string `""`, and nullable strings are
`Option String` where `some ""` is as falsy as `none`. Mongoose `_id`
values are `Nat`, timestamps are `Nat`. Database writes are modelled by
threading an explicit `DB` value; each operation returns the database
after all writes it performed together with its success or error result,
so an error paired with the unchanged input database models an operation
that persisted nothing.
-/

/-- Roles carried by `req.user.role` and `ChatMessage.senderRole`.
The `User` model uses admin/trainer/student/principal; the message schema
additionally allows ai and system senders. -/
inductive Role where
  | student
  | trainer
  | admin
  | principal
  | ai
  | system
deriving DecidableEq, Repr

/-- The `doubtType` enum of `models/Doubt.js`: values trainer and ai. -/
inductive DoubtType where
  | trainer
  | ai
deriving DecidableEq, Repr

/-- The `status` enum of `models/Doubt.js`:
pending, in_progress, resolved, closed, cancelled. -/
inductive Status where
  | pending
  | in_progress
  | resolved
  | closed
  | cancelled
deriving DecidableEq, Repr

/-- The string stored for each status value in the document database,
used when a query compares `status` against a string literal. -/
def statusToString : Status → String
  | .pending => "pending"
  | .in_progress => "in_progress"
  | .resolved => "resolved"
  | .closed => "closed"
  | .cancelled => "cancelled"

/-- A `DoubtSession` document (`models/Doubt.js`). `trainer` defaults to
null (AI doubts), `session` (here `sessionTopic`) is required only for
trainer doubts, `aiHelpful` and `aiFeedbackText` hold optional feedback. -/
structure DoubtSession where
  id : Nat
  student : Nat
  trainer : Option Nat
  grade : Int
  school : Nat
  sessionTopic : Option Nat
  initialDoubtText : String
  doubtType : DoubtType
  status : Status
  lastMessageAt : Nat
  aiHelpful : Option Bool
  aiFeedbackText : Option String
deriving DecidableEq, Repr

/-- A `ChatMessage` document (`models/ChatMessage.js`). `sender` is null
for ai and system messages; `messageText` is the empty string when the
message carries only an attachment. -/
structure ChatMessage where
  doubtSession : Nat
  sender : Option Nat
  senderRole : Role
  messageText : String
  attachmentUrl : Option String
  createdAt : Nat
deriving DecidableEq, Repr

/-- Truthiness of a nullable string: present and non-empty.  Models the
JavaScript test `if (s)` on a string-or-null value and the Mongoose
required-check for `String` paths, which rejects the empty string. -/
def strOptPresent : Option String → Bool
  | none => false
  | some s => !(s == "")

/-- Validity of a chat message under the `messageText` conditional-required
rule of `models/ChatMessage.js`: `messageText` is required (non-empty)
exactly when `attachmentUrl` is absent, so a stored message always has at
least one of the two fields non-empty. -/
def chatMessageValid (m : ChatMessage) : Bool :=
  !(m.messageText == "") || strOptPresent m.attachmentUrl

/-- A user record as resolved from the `User` collection: name, role, the
school stored as a plain name string (possibly unset), and the grade. -/
structure UserRec where
  id : Nat
  name : String
  role : Role
  school : Option String
  grade : Int
deriving DecidableEq, Repr

/-- A school record from the `School` collection, looked up by name to
recover the ObjectId the `DoubtSession.school` field requires. -/
structure SchoolRec where
  id : Nat
  schoolName : String
deriving DecidableEq, Repr

/-- The external directories the doubt controller reads: users, schools,
and the ids of session-topic subdocuments of the `Session` collection. -/
structure Env where
  users : List UserRec
  schools : List SchoolRec
  topics : List Nat
deriving Repr

/-- Lookup `User.findById`. -/
def findUser (env : Env) (uid : Nat) : Option UserRec :=
  env.users.find? (fun u => u.id == uid)

/-- Lookup `School.findOne with schoolName equal to the given name`. -/
def findSchool (env : Env) (name : String) : Option SchoolRec :=
  env.schools.find? (fun s => s.schoolName == name)

/-- The payload captured by a scheduled Simulated Responder callback:
the initiate path closes over the student name and the initial doubt
text, the follow-up path over the text of the triggering message. -/
inductive AiTaskKind where
  | initial (studentName : String) (initialDoubtText : String)
  | followUp (messageText : String)
deriving DecidableEq, Repr

/-- A pending `setTimeout` callback of the Simulated Responder, keyed by
the session it will answer. -/
structure AiTask where
  sessionId : Nat
  kind : AiTaskKind
deriving DecidableEq, Repr

/-- The persistent state: stored sessions and messages, the pending
Simulated Responder timers, and the id counter for new sessions. -/
structure DB where
  sessions : List DoubtSession
  messages : List ChatMessage
  tasks : List AiTask
  nextId : Nat
deriving Repr

/-- Lookup `DoubtSession.findById` over the stored sessions. -/
def findSession (l : List DoubtSession) (sid : Nat) : Option DoubtSession :=
  l.find? (fun s => s.id == sid)

/-- Overwrite the stored session with the given id, modelling
`doubtSession.save()` on a loaded document. -/
def updateSessionL (l : List DoubtSession) (sid : Nat)
    (f : DoubtSession → DoubtSession) : List DoubtSession :=
  l.map (fun s => if s.id == sid then f s else s)

/-- Error outcomes of the doubt controller and middleware, one
constructor per distinct early-return in the source. -/
inductive Err where
  | validation
  | invalidDoubtType
  | studentNotFound
  | profileMissingSchool
  | schoolNotFound
  | invalidTrainer
  | invalidTopic
  | sessionNotFound
  | forbidden
  | conflictTerminal
  | serverError
deriving DecidableEq, Repr

/-- The HTTP status each error is returned with in the source. -/
def httpStatus : Err → Nat
  | .validation => 400
  | .invalidDoubtType => 400
  | .studentNotFound => 404
  | .profileMissingSchool => 400
  | .schoolNotFound => 400
  | .invalidTrainer => 400
  | .invalidTopic => 400
  | .sessionNotFound => 404
  | .forbidden => 403
  | .conflictTerminal => 400
  | .serverError => 500

/-- Successful result of initiation: the new session id and the initial
chat message echoed in the 201 response. -/
structure InitOut where
  sessionId : Nat
  initialMessage : ChatMessage
deriving DecidableEq, Repr

/-- The simulated AI answer synthesized by the initiate-path callback. -/
def aiInitialAnswer (studentName initialDoubtText : String) : String :=
  "Hello " ++ studentName ++ ", I\x27m the AI assistant! Regarding your doubt: \"" ++
    initialDoubtText ++
    "\", here\x27s what I found... [Simulated AI Answer based on your query]. " ++
    "Please provide feedback if this was helpful."

/-- The simulated AI answer synthesized by the follow-up callback. -/
def aiFollowUpAnswer (messageText : String) : String :=
  "(AI Follow-up to \"" ++ messageText ++
    "\") Here’s more clarification: ... [Simulated AI Answer]."

/-- Controller `initiateDoubtSession` (`POST /api/doubts/initiate`).
Validates the payload, resolves the student and then the school record
from the school name stored on the student profile, and branches on
`doubtType`: the trainer branch checks the trainer reference (existence
and role) and the session-topic reference, then persists a `pending`
session; the ai branch persists an `in_progress` session and schedules
the Simulated Responder callback. Both branches persist exactly one
initial student message. Every failure returns before any write. -/
def initiateDoubtSession (env : Env) (db : DB) (studentId : Nat)
    (doubtType : String) (trainerId : Option Nat) (topicId : Option Nat)
    (initialDoubtText : String) (attachmentUrl : Option String) (now : Nat) :
    DB × Except Err InitOut :=
  if doubtType = "" ∨ initialDoubtText = "" then
    (db, .error .validation)
  else
    match findUser env studentId with
    | none => (db, .error .studentNotFound)
    | some student =>
      match student.school with
      | none => (db, .error .profileMissingSchool)
      | some schoolName =>
        if schoolName = "" then (db, .error .profileMissingSchool)
        else
          match findSchool env schoolName with
          | none => (db, .error .schoolNotFound)
          | some schoolDoc =>
            if doubtType = "trainer" then
              match trainerId, topicId with
              | some tid, some topid =>
                match findUser env tid with
                | none => (db, .error .invalidTrainer)
                | some trainer =>
                  if trainer.role ≠ Role.trainer then (db, .error .invalidTrainer)
                  else if ¬ (topid ∈ env.topics) then (db, .error .invalidTopic)
                  else
                    let s : DoubtSession :=
                      { id := db.nextId, student := studentId, trainer := some tid,
                        grade := student.grade, school := schoolDoc.id,
                        sessionTopic := some topid,
                        initialDoubtText := initialDoubtText,
                        doubtType := .trainer, status := .pending,
                        lastMessageAt := now,
                        aiHelpful := none, aiFeedbackText := none }
                    let m : ChatMessage :=
                      { doubtSession := db.nextId, sender := some studentId,
                        senderRole := .student, messageText := initialDoubtText,
                        attachmentUrl := attachmentUrl, createdAt := now }
                    ({ sessions := db.sessions ++ [s],
                       messages := db.messages ++ [m],
                       tasks := db.tasks, nextId := db.nextId + 1 },
                     .ok { sessionId := db.nextId, initialMessage := m })
              | _, _ => (db, .error .validation)
            else if doubtType = "ai" then
              let s : DoubtSession :=
                { id := db.nextId, student := studentId, trainer := none,
                  grade := student.grade, school := schoolDoc.id,
                  sessionTopic := none,
                  initialDoubtText := initialDoubtText,
                  doubtType := .ai, status := .in_progress,
                  lastMessageAt := now,
                  aiHelpful := none, aiFeedbackText := none }
              let m : ChatMessage :=
                { doubtSession := db.nextId, sender := some studentId,
                  senderRole := .student, messageText := initialDoubtText,
                  attachmentUrl := attachmentUrl, createdAt := now }
              ({ sessions := db.sessions ++ [s],
                 messages := db.messages ++ [m],
                 tasks := db.tasks ++
                   [{ sessionId := db.nextId,
                      kind := .initial student.name initialDoubtText }],
                 nextId := db.nextId + 1 },
               .ok { sessionId := db.nextId, initialMessage := m })
            else (db, .error .invalidDoubtType)

/-- Middleware `isParticipantInDoubtSession` (`middleware/authMiddleware.js`).
An admin is admitted immediately with `next()` — before the session is
looked up, so nothing is attached to `req.doubtSession` for an admin and
the result carries `none`. For any other role the session is loaded and
the caller must be the owning student or the assigned trainer; the loaded
document is attached and carried as `some session`. -/
def isParticipantInDoubtSession (db : DB) (userId : Nat) (userRole : Role)
    (sid : Nat) : Except Err (Option DoubtSession) :=
  if userRole = Role.admin then .ok none
  else
    match findSession db.sessions sid with
    | none => .error .sessionNotFound
    | some s =>
      if s.student = userId ∨ s.trainer = some userId then .ok (some s)
      else .error .forbidden

/-- The write phase shared by every accepted send: persist the chat
message, bump `lastMessageAt`, escalate pending to in_progress when a
trainer replies, and for a student message on an ai session schedule the
follow-up Simulated Responder callback. `s` is the in-memory session
document at this point of the handler (already reopened when the reopen
branch ran). -/
def sendCore (db : DB) (s : DoubtSession) (userId : Nat) (userRole : Role)
    (messageText : String) (attachmentUrl : Option String) (now : Nat) :
    DB × Except Err ChatMessage :=
  let m : ChatMessage :=
    { doubtSession := s.id, sender := some userId, senderRole := userRole,
      messageText := messageText, attachmentUrl := attachmentUrl,
      createdAt := now }
  let newStatus :=
    if userRole = Role.trainer ∧ s.status = Status.pending then
      Status.in_progress
    else s.status
  let s2 : DoubtSession := { s with lastMessageAt := now, status := newStatus }
  let db2 : DB :=
    { db with
      sessions := updateSessionL db.sessions s.id (fun _ => s2),
      messages := db.messages ++ [m] }
  if s.doubtType = DoubtType.ai ∧ userRole = Role.student then
    ({ db2 with tasks := db2.tasks ++
        [{ sessionId := s.id, kind := .followUp messageText }] },
     .ok m)
  else (db2, .ok m)

/-- Controller `sendDoubtMessage` (`POST /api/doubts/:id/messages`).
Validates that text or attachment is present, then reads
`req.doubtSession` (absent for an admin, whose dereference throws and is
caught as a 500 server error). A session in resolved, closed or
cancelled status rejects the message with one exception: an ai-type
session with a student sender is reopened to in_progress and the send
proceeds. -/
def sendDoubtMessage (db : DB) (reqSession : Option DoubtSession)
    (userId : Nat) (userRole : Role) (messageText : String)
    (attachmentUrl : Option String) (now : Nat) :
    DB × Except Err ChatMessage :=
  if messageText = "" ∧ strOptPresent attachmentUrl = false then
    (db, .error .validation)
  else
    match reqSession with
    | none => (db, .error .serverError)
    | some s0 =>
      if s0.status = Status.resolved ∨ s0.status = Status.closed ∨
          s0.status = Status.cancelled then
        if s0.doubtType = DoubtType.ai ∧ userRole = Role.student then
          let s1 : DoubtSession :=
            { s0 with status := .in_progress, lastMessageAt := now }
          let db1 : DB :=
            { db with sessions := updateSessionL db.sessions s0.id (fun _ => s1) }
          sendCore db1 s1 userId userRole messageText attachmentUrl now
        else (db, .error .conflictTerminal)
      else sendCore db s0 userId userRole messageText attachmentUrl now

/-- The send route: the middleware runs first, then the handler with
whatever the middleware attached to `req.doubtSession`. -/
def sendRoute (db : DB) (userId : Nat) (userRole : Role) (sid : Nat)
    (messageText : String) (attachmentUrl : Option String) (now : Nat) :
    DB × Except Err ChatMessage :=
  match isParticipantInDoubtSession db userId userRole sid with
  | .error e => (db, .error e)
  | .ok reqS => sendDoubtMessage db reqS userId userRole messageText attachmentUrl now

/-- Controller `closeDoubtSession` (`PUT /api/doubts/:id/close`). Reads
`req.doubtSession` (absent for an admin: the dereference throws and is
caught as a 500 server error), rejects sessions already closed, resolved
or cancelled, re-checks that the caller is the student, the assigned
trainer or an admin, and sets the status to closed. -/
def closeDoubtSession (db : DB) (reqSession : Option DoubtSession)
    (userId : Nat) (userRole : Role) : DB × Except Err DoubtSession :=
  match reqSession with
  | none => (db, .error .serverError)
  | some s =>
    if s.status = Status.closed ∨ s.status = Status.resolved ∨
        s.status = Status.cancelled then
      (db, .error .conflictTerminal)
    else
      if ¬ (userRole = Role.admin) ∧ ¬ (s.student = userId) ∧
          ¬ (s.trainer = some userId) then
        (db, .error .forbidden)
      else
        let s2 : DoubtSession := { s with status := .closed }
        ({ db with sessions := updateSessionL db.sessions s.id (fun _ => s2) },
         .ok s2)

/-- The close route: middleware, then the close handler. -/
def closeRoute (db : DB) (userId : Nat) (userRole : Role) (sid : Nat) :
    DB × Except Err DoubtSession :=
  match isParticipantInDoubtSession db userId userRole sid with
  | .error e => (db, .error e)
  | .ok reqS => closeDoubtSession db reqS userId userRole

/-- Controller `getDoubtSessionMessages` (`GET /api/doubts/:id/messages`).
After the middleware admits the caller, the handler queries the messages
of the session by its id directly (it does not dereference
`req.doubtSession`), sorted by `createdAt`; stored order here is creation
order, which the filter preserves. -/
def getDoubtSessionMessages (db : DB) (userId : Nat) (userRole : Role)
    (sid : Nat) : Except Err (List ChatMessage) :=
  match isParticipantInDoubtSession db userId userRole sid with
  | .error e => .error e
  | .ok _ => .ok (db.messages.filter (fun m => m.doubtSession == sid))

/-- Firing one scheduled Simulated Responder callback. `aiFails` models
whether the stand-in external AI call inside the `try` throws. On
success: persist an ai-role message with null sender, set the status to
resolved and bump `lastMessageAt` — unconditionally, whatever the status
at firing time. On failure in the initiate-path callback: persist a
system-role error message with null sender, set the status to cancelled
and bump `lastMessageAt`. On failure in the follow-up callback: persist
the system-role error message only; the session document is not written. -/
def fireAiTask (db : DB) (t : AiTask) (aiFails : Bool) (now : Nat) : DB :=
  if aiFails then
    match t.kind with
    | .initial _ _ =>
      { db with
        messages := db.messages ++
          [{ doubtSession := t.sessionId, sender := none, senderRole := .system,
             messageText := "AI encountered an error. Please try again later or contact a trainer.",
             attachmentUrl := none, createdAt := now }],
        sessions := updateSessionL db.sessions t.sessionId
          (fun s => { s with status := .cancelled, lastMessageAt := now }) }
    | .followUp _ =>
      { db with
        messages := db.messages ++
          [{ doubtSession := t.sessionId, sender := none, senderRole := .system,
             messageText := "AI encountered an error processing your follow-up. Please try again.",
             attachmentUrl := none, createdAt := now }] }
  else
    let text :=
      match t.kind with
      | .initial studentName initialDoubtText =>
        aiInitialAnswer studentName initialDoubtText
      | .followUp messageText => aiFollowUpAnswer messageText
    { db with
      messages := db.messages ++
        [{ doubtSession := t.sessionId, sender := none, senderRole := .ai,
           messageText := text, attachmentUrl := none, createdAt := now }],
      sessions := updateSessionL db.sessions t.sessionId
        (fun s => { s with status := .resolved, lastMessageAt := now }) }

/-- The Mongo filter of `getTrainerDoubtSessions`: sessions of the given
trainer whose stored status string is in the array of the two literals
pending and open. -/
def trainerDoubtMatch (tid : Nat) (s : DoubtSession) : Bool :=
  s.trainer == some tid &&
    (statusToString s.status == "pending" || statusToString s.status == "open")

/-- Controller `getTrainerDoubtSessions`
(`GET /api/doubts/trainer/my-doubts`): the stored sessions satisfying
the trainer filter. -/
def getTrainerDoubtSessions (db : DB) (tid : Nat) : List DoubtSession :=
  db.sessions.filter (trainerDoubtMatch tid)

/-- A student user fixture with a resolvable school. -/
def exStudent : UserRec :=
  { id := 1, name := "Asha", role := .student, school := some "Green View", grade := 5 }

/-- A trainer user fixture at the same school. -/
def exTrainerU : UserRec :=
  { id := 2, name := "Tom", role := .trainer, school := some "Green View", grade := 5 }

/-- Directory fixture: the two users, one school record, one topic id. -/
def exEnv : Env :=
  { users := [exStudent, exTrainerU],
    schools := [{ id := 10, schoolName := "Green View" }],
    topics := [42] }

/-- Directory fixture with an empty school collection, so the school name
on the student profile resolves to no record. -/
def exEnvNoSchool : Env := { exEnv with schools := [] }

/-- The empty database. -/
def emptyDB : DB := { sessions := [], messages := [], tasks := [], nextId := 0 }

/-- An ai-type session fixture in closed status. -/
def sessClosedAi : DoubtSession :=
  { id := 0, student := 1, trainer := none, grade := 5, school := 10,
    sessionTopic := none, initialDoubtText := "q", doubtType := .ai,
    status := .closed, lastMessageAt := 0, aiHelpful := none, aiFeedbackText := none }

/-- Database holding only the closed ai session. -/
def dbClosedAi : DB := { sessions := [sessClosedAi], messages := [], tasks := [], nextId := 1 }

/-- A trainer-type session fixture in resolved status. -/
def sessResolvedTrainer : DoubtSession :=
  { id := 0, student := 1, trainer := some 2, grade := 5, school := 10,
    sessionTopic := some 42, initialDoubtText := "q", doubtType := .trainer,
    status := .resolved, lastMessageAt := 0, aiHelpful := none, aiFeedbackText := none }

/-- Database holding only the resolved trainer session. -/
def dbResolvedTrainer : DB :=
  { sessions := [sessResolvedTrainer], messages := [], tasks := [], nextId := 1 }

/-- A trainer-type session fixture in pending status. -/
def sessPendingTrainer : DoubtSession :=
  { id := 0, student := 1, trainer := some 2, grade := 5, school := 10,
    sessionTopic := some 42, initialDoubtText := "q", doubtType := .trainer,
    status := .pending, lastMessageAt := 0, aiHelpful := none, aiFeedbackText := none }

/-- Database holding only the pending trainer session. -/
def dbPendingTrainer : DB :=
  { sessions := [sessPendingTrainer], messages := [], tasks := [], nextId := 1 }

/-- An ai-type session fixture in in_progress status. -/
def sessInProgressAi : DoubtSession :=
  { id := 0, student := 1, trainer := none, grade := 5, school := 10,
    sessionTopic := none, initialDoubtText := "q", doubtType := .ai,
    status := .in_progress, lastMessageAt := 0, aiHelpful := none, aiFeedbackText := none }

/-- Database holding the in_progress ai session with a pending follow-up
Simulated Responder task. -/
def dbInProgressAi : DB :=
  { sessions := [sessInProgressAi], messages := [],
    tasks := [{ sessionId := 0, kind := .followUp "x" }], nextId := 1 }

/-- Rewriting a stored session found by id: after `updateSessionL` the
lookup returns the rewritten document, provided the rewrite keeps the id. -/
theorem findSession_updateSessionL (l : List DoubtSession) (sid : Nat)
    (f : DoubtSession → DoubtSession) (s : DoubtSession)
    (h : findSession l sid = some s) (hid : (f s).id = sid) :
    findSession (updateSessionL l sid f) sid = some (f s) := by
  induction l with
  | nil => simp [findSession] at h
  | cons x xs ih =>
    simp only [findSession, updateSessionL, List.map_cons] at h ih ⊢
    by_cases hx : x.id = sid
    · rw [List.find?_cons_of_pos _ (by simpa using hx)] at h
      cases h
      rw [if_pos (by simpa using hx)]
      rw [List.find?_cons_of_pos _ (by simpa using hid)]
    · rw [List.find?_cons_of_neg _ (by simpa using hx)] at h
      rw [if_neg (by simpa using hx)]
      rw [List.find?_cons_of_neg _ (by simpa using hx)]
      exact ih h

/-- Claim C1, counterexample. The claim admits only the ai-resolved case
as an exception, yet a student message on an ai-type session whose status
is closed is accepted by `sendDoubtMessage`: the message is persisted and
the session is reopened to in_progress. -/
theorem sendClosedAiStudentAccepted :
    (sendRoute dbClosedAi 1 .student 0 "follow" none 7).2 =
      .ok { doubtSession := 0, sender := some 1, senderRole := .student,
            messageText := "follow", attachmentUrl := none, createdAt := 7 } ∧
    (sendRoute dbClosedAi 1 .student 0 "follow" none 7).1.messages =
      [{ doubtSession := 0, sender := some 1, senderRole := .student,
         messageText := "follow", attachmentUrl := none, createdAt := 7 }] ∧
    findSession (sendRoute dbClosedAi 1 .student 0 "follow" none 7).1.sessions 0 =
      some { sessClosedAi with status := .in_progress, lastMessageAt := 7 } :=
  ⟨rfl, rfl, rfl⟩

/-- Claim C2, counterexample. The claim says an authorized close of a
session in resolved status succeeds, but `closeDoubtSession` rejects
resolved sessions with the same Conflict error as terminal ones: the
owning student closing the resolved trainer session fails and the
database is unchanged. -/
theorem closeResolvedSessionConflict :
    closeRoute dbResolvedTrainer 1 .student 0 =
      (dbResolvedTrainer, .error .conflictTerminal) := rfl

/-- Claim C3: behavior of the three session-scoped routes for an admin
who is not a participant. The middleware admits the admin, and the read
succeeds; but because the middleware attaches no session document for an
admin, both mutating handlers dereference a missing `req.doubtSession`
and fail with a 500 server error instead of behaving as for a
participant — in particular an admin cannot close a pending session. -/
theorem adminSessionAccessBehavior :
    getDoubtSessionMessages dbPendingTrainer 99 .admin 0 = .ok [] ∧
    sendRoute dbPendingTrainer 99 .admin 0 "hello" none 3 =
      (dbPendingTrainer, .error .serverError) ∧
    closeRoute dbPendingTrainer 99 .admin 0 =
      (dbPendingTrainer, .error .serverError) ∧
    httpStatus .serverError = 500 :=
  ⟨rfl, rfl, rfl, rfl⟩

/-- Claim C4, counterexample. A successful initiation that carries an
attachment persists an initial message whose messageText and
attachmentUrl are both non-empty, so the exactly-one invariant claimed
for all persisted messages fails. -/
theorem initiateMessageBothFieldsPopulated :
    (initiateDoubtSession exEnv emptyDB 1 "ai" none none "q" (some "http://x") 3).1.messages =
      [{ doubtSession := 0, sender := some 1, senderRole := .student,
         messageText := "q", attachmentUrl := some "http://x", createdAt := 3 }] ∧
    ("q" = "") = False ∧ strOptPresent (some "http://x") = true :=
  ⟨rfl, by simp, rfl⟩

/-- Claim C5, counterexample. When the follow-up Simulated Responder
callback fails, the system-role error message is persisted but the
session is not written at all: its status stays in_progress instead of
becoming cancelled as the claim states. -/
theorem aiFollowUpFailureLeavesStatus :
    (fireAiTask dbInProgressAi { sessionId := 0, kind := .followUp "x" } true 9).sessions =
      [sessInProgressAi] ∧
    sessInProgressAi.status = .in_progress ∧
    (fireAiTask dbInProgressAi { sessionId := 0, kind := .followUp "x" } true 9).messages =
      [{ doubtSession := 0, sender := none, senderRole := .system,
         messageText := "AI encountered an error processing your follow-up. Please try again.",
         attachmentUrl := none, createdAt := 9 }] :=
  ⟨rfl, rfl, rfl⟩

/-- Claim C10: the trainer listing filter matches exactly the sessions
assigned to the trainer whose status is pending. The filter compares the
stored status string against the literals pending and open; no status
enum value prints as open, so in_progress (and every other non-pending
status) never matches. -/
theorem getTrainerDoubtSessionsPendingOnly (db : DB) (tid : Nat) (s : DoubtSession) :
    s ∈ getTrainerDoubtSessions db tid ↔
      s ∈ db.sessions ∧ s.trainer = some tid ∧ s.status = .pending := by
  unfold getTrainerDoubtSessions trainerDoubtMatch
  rw [List.mem_filter]
  constructor
  · rintro ⟨hmem, hb⟩
    simp only [Bool.and_eq_true, Bool.or_eq_true, beq_iff_eq] at hb
    obtain ⟨ht, hst⟩ := hb
    refine ⟨hmem, ht, ?_⟩
    cases h : s.status <;> simp_all [statusToString]
  · rintro ⟨hmem, ht, hst⟩
    refine ⟨hmem, ?_⟩
    simp [ht, hst, statusToString]

/-- Claim C10, witness: the pending trainer session of the fixture
database is listed for trainer 2. -/
theorem getTrainerDoubtSessionsPendingOnlyWitness :
    sessPendingTrainer ∈ getTrainerDoubtSessions dbPendingTrainer 2 ↔
      sessPendingTrainer ∈ dbPendingTrainer.sessions ∧
      sessPendingTrainer.trainer = some 2 ∧ sessPendingTrainer.status = .pending :=
  getTrainerDoubtSessionsPendingOnly dbPendingTrainer 2 sessPendingTrainer

/-- Claim C1 (amended): appending to a session in closed or cancelled
status fails with Conflict and changes nothing — except that any student
message on an ai-type session (not only in resolved status) is accepted,
persisted, and reopens the session to in_progress. -/
theorem sendTerminalSessionBehavior
    (db : DB) (s : DoubtSession) (userId : Nat) (userRole : Role)
    (text : String) (att : Option String) (now : Nat)
    (hterm : s.status = .closed ∨ s.status = .cancelled)
    (hval : ¬(text = "" ∧ strOptPresent att = false)) :
    (¬(s.doubtType = .ai ∧ userRole = .student) →
      sendDoubtMessage db (some s) userId userRole text att now =
        (db, .error .conflictTerminal)) ∧
    ((s.doubtType = .ai ∧ userRole = .student) →
      findSession db.sessions s.id = some s →
      (sendDoubtMessage db (some s) userId userRole text att now).2 =
        .ok { doubtSession := s.id, sender := some userId, senderRole := userRole,
              messageText := text, attachmentUrl := att, createdAt := now } ∧
      (sendDoubtMessage db (some s) userId userRole text att now).1.messages =
        db.messages ++ [{ doubtSession := s.id, sender := some userId,
                          senderRole := userRole, messageText := text,
                          attachmentUrl := att, createdAt := now }] ∧
      findSession (sendDoubtMessage db (some s) userId userRole text att now).1.sessions s.id =
        some { s with status := .in_progress, lastMessageAt := now }) := by
  have hcond : s.status = Status.resolved ∨ s.status = Status.closed ∨
      s.status = Status.cancelled := by
    rcases hterm with h | h
    · exact Or.inr (Or.inl h)
    · exact Or.inr (Or.inr h)
  constructor
  · intro hnot
    simp only [sendDoubtMessage]
    rw [if_neg hval, if_pos hcond, if_neg hnot]
  · rintro ⟨hai, hrole⟩ hfind
    subst hrole
    have heq : sendDoubtMessage db (some s) userId Role.student text att now =
        ({ db with
            sessions := updateSessionL
              (updateSessionL db.sessions s.id
                (fun _ => { s with status := .in_progress, lastMessageAt := now }))
              s.id (fun _ => { s with status := .in_progress, lastMessageAt := now }),
            messages := db.messages ++
              [{ doubtSession := s.id, sender := some userId,
                 senderRole := .student, messageText := text,
                 attachmentUrl := att, createdAt := now }],
            tasks := db.tasks ++ [{ sessionId := s.id, kind := .followUp text }] },
         .ok { doubtSession := s.id, sender := some userId, senderRole := .student,
               messageText := text, attachmentUrl := att, createdAt := now }) := by
      simp only [sendDoubtMessage, sendCore]
      rw [if_neg hval, if_pos hcond, if_pos ⟨hai, trivial⟩]
      simp [hai]
    refine ⟨by rw [heq], by rw [heq], ?_⟩
    rw [heq]
    have h1 := findSession_updateSessionL db.sessions s.id
      (fun _ => { s with status := .in_progress, lastMessageAt := now }) s hfind rfl
    have h2 := findSession_updateSessionL _ s.id
      (fun _ => { s with status := .in_progress, lastMessageAt := now }) _ h1 rfl
    exact h2

/-- Claim C1 (amended), witness: the reopen exception applied to the
concrete closed ai session. -/
theorem sendTerminalSessionBehaviorWitness :
    (sendDoubtMessage dbClosedAi (some sessClosedAi) 1 .student "follow" none 7).2 =
      .ok { doubtSession := sessClosedAi.id, sender := some 1, senderRole := .student,
            messageText := "follow", attachmentUrl := none, createdAt := 7 } :=
  ((sendTerminalSessionBehavior dbClosedAi sessClosedAi 1 .student "follow" none 7
    (Or.inl rfl) (by simp)).2 ⟨rfl, rfl⟩ rfl).1

/-- Claim C2 (amended): an authorized close succeeds exactly on pending
and in_progress sessions, setting the status to closed; a close on a
resolved, closed, or cancelled session fails with Conflict and leaves the
database unchanged. -/
theorem closeSessionStatusBehavior
    (db : DB) (s : DoubtSession) (userId : Nat) (userRole : Role)
    (hauth : userRole = Role.admin ∨ s.student = userId ∨ s.trainer = some userId) :
    ((s.status = .pending ∨ s.status = .in_progress) →
      closeDoubtSession db (some s) userId userRole =
        ({ db with sessions := updateSessionL db.sessions s.id
                     (fun _ => { s with status := .closed }) },
         .ok { s with status := .closed })) ∧
    ((s.status = .resolved ∨ s.status = .closed ∨ s.status = .cancelled) →
      closeDoubtSession db (some s) userId userRole = (db, .error .conflictTerminal)) := by
  constructor
  · intro hst
    have hterm : ¬(s.status = Status.closed ∨ s.status = Status.resolved ∨
        s.status = Status.cancelled) := by
      rcases hst with h | h <;> rw [h] <;> simp
    have hne : ¬(¬(userRole = Role.admin) ∧ ¬(s.student = userId) ∧
        ¬(s.trainer = some userId)) := by tauto
    simp only [closeDoubtSession]
    rw [if_neg hterm, if_neg hne]
  · intro hst
    have hterm : s.status = Status.closed ∨ s.status = Status.resolved ∨
        s.status = Status.cancelled := by tauto
    simp only [closeDoubtSession]
    rw [if_pos hterm]

/-- Claim C2 (amended), witness: the owning student closes the concrete
pending trainer session, and the status becomes closed. -/
theorem closeSessionStatusBehaviorWitness :
    closeDoubtSession dbPendingTrainer (some sessPendingTrainer) 1 .student =
      ({ dbPendingTrainer with
          sessions := updateSessionL dbPendingTrainer.sessions sessPendingTrainer.id
            (fun _ => { sessPendingTrainer with status := .closed }) },
       .ok { sessPendingTrainer with status := .closed }) :=
  (closeSessionStatusBehavior dbPendingTrainer sessPendingTrainer 1 .student
    (Or.inr (Or.inl rfl))).1 (Or.inl rfl)

theorem findSession_id (l : List DoubtSession) (sid : Nat) (s : DoubtSession)
    (h : findSession l sid = some s) : s.id = sid := by
  have := List.find?_some h
  simpa using this

theorem aiInitialAnswer_ne (a b : String) : (aiInitialAnswer a b == "") = false := by
  rw [beq_eq_false_iff_ne]
  intro h
  have h2 := congrArg String.length h
  simp [aiInitialAnswer, String.length_append] at h2
  exact absurd h2.1.1.1.1.1 (by decide)

theorem aiFollowUpAnswer_ne (a : String) : (aiFollowUpAnswer a == "") = false := by
  rw [beq_eq_false_iff_ne]
  intro h
  have h2 := congrArg String.length h
  simp [aiFollowUpAnswer, String.length_append] at h2
  exact absurd h2.1.1 (by decide)

/-- Claim C4 (amended): every ChatMessage persisted by initiation, by an
accepted send, and by the Simulated Responder has at least one of
messageText and attachmentUrl non-empty (both non-empty is possible;
both empty is never persisted). -/
theorem persistedMessagesValid :
    (∀ env db studentId doubtType trainerId topicId text att now db2 out,
      initiateDoubtSession env db studentId doubtType trainerId topicId text att now =
        (db2, .ok out) →
      db2.messages = db.messages ++ [out.initialMessage] ∧
      chatMessageValid out.initialMessage = true) ∧
    (∀ db reqS userId userRole text att now db2 m,
      sendDoubtMessage db reqS userId userRole text att now = (db2, .ok m) →
      db2.messages = db.messages ++ [m] ∧ chatMessageValid m = true) ∧
    (∀ db t aiFails now, ∃ m,
      (fireAiTask db t aiFails now).messages = db.messages ++ [m] ∧
      chatMessageValid m = true) := by
  refine ⟨?_, ?_, ?_⟩
  · intro env db studentId doubtType trainerId topicId text att now db2 out h
    simp only [initiateDoubtSession] at h
    repeat' split at h
    all_goals simp only [Prod.mk.injEq] at h
    all_goals obtain ⟨hdb, hsnd⟩ := h
    all_goals injection hsnd
    all_goals rename_i hout
    all_goals subst hdb
    all_goals subst hout
    all_goals refine ⟨by simp, ?_⟩
    all_goals simp only [chatMessageValid]
    all_goals by_cases he : text = "" <;> simp_all
  · intro db reqS userId userRole text att now db2 m h
    simp only [sendDoubtMessage, sendCore] at h
    repeat' split at h
    all_goals simp only [Prod.mk.injEq] at h
    all_goals obtain ⟨hdb, hsnd⟩ := h
    all_goals injection hsnd
    all_goals rename_i hout
    all_goals subst hdb
    all_goals subst hout
    all_goals refine ⟨by simp, ?_⟩
    all_goals simp only [chatMessageValid]
    all_goals by_cases he : text = "" <;> simp_all [strOptPresent]
  · intro db t aiFails now
    cases haiF : aiFails with
    | true =>
      cases hk : t.kind with
      | initial a b =>
        refine ⟨{ doubtSession := t.sessionId, sender := none, senderRole := .system,
                  messageText := "AI encountered an error. Please try again later or contact a trainer.",
                  attachmentUrl := none, createdAt := now }, ?_, ?_⟩
        · simp [fireAiTask, hk]
        · rfl
      | followUp a =>
        refine ⟨{ doubtSession := t.sessionId, sender := none, senderRole := .system,
                  messageText := "AI encountered an error processing your follow-up. Please try again.",
                  attachmentUrl := none, createdAt := now }, ?_, ?_⟩
        · simp [fireAiTask, hk]
        · rfl
    | false =>
      cases hk : t.kind with
      | initial a b =>
        refine ⟨{ doubtSession := t.sessionId, sender := none, senderRole := .ai,
                  messageText := aiInitialAnswer a b,
                  attachmentUrl := none, createdAt := now }, ?_, ?_⟩
        · simp [fireAiTask, hk]
        · simp [chatMessageValid, aiInitialAnswer_ne]
      | followUp a =>
        refine ⟨{ doubtSession := t.sessionId, sender := none, senderRole := .ai,
                  messageText := aiFollowUpAnswer a,
                  attachmentUrl := none, createdAt := now }, ?_, ?_⟩
        · simp [fireAiTask, hk]
        · simp [chatMessageValid, aiFollowUpAnswer_ne]

/-- Claim C4 (amended), witness: the accepted student message on the
concrete closed ai session is appended and valid. -/
theorem persistedMessagesValidWitness :
    (sendDoubtMessage dbClosedAi (some sessClosedAi) 1 .student "follow" none 7).1.messages =
      dbClosedAi.messages ++
        [{ doubtSession := 0, sender := some 1, senderRole := .student,
           messageText := "follow", attachmentUrl := none, createdAt := 7 }] ∧
    chatMessageValid
      { doubtSession := 0, sender := some 1, senderRole := .student,
        messageText := "follow", attachmentUrl := none, createdAt := 7 } = true :=
  persistedMessagesValid.2.1 dbClosedAi (some sessClosedAi) 1 .student "follow" none 7
    (sendDoubtMessage dbClosedAi (some sessClosedAi) 1 .student "follow" none 7).1
    { doubtSession := 0, sender := some 1, senderRole := .student,
      messageText := "follow", attachmentUrl := none, createdAt := 7 } rfl

/-- Claim C5 (amended): a failing Simulated Responder callback always
persists a system-role error message with null sender; the callback
scheduled by initiation additionally sets the session status to
cancelled, but the follow-up callback leaves the session document
untouched (its status is unchanged). -/
theorem aiFailurePersistsSystemMessage
    (db : DB) (t : AiTask) (now : Nat) (s : DoubtSession)
    (hfind : findSession db.sessions t.sessionId = some s) :
    (∀ a b, t.kind = .initial a b →
      (fireAiTask db t true now).messages = db.messages ++
        [{ doubtSession := t.sessionId, sender := none, senderRole := .system,
           messageText := "AI encountered an error. Please try again later or contact a trainer.",
           attachmentUrl := none, createdAt := now }] ∧
      findSession (fireAiTask db t true now).sessions t.sessionId =
        some { s with status := .cancelled, lastMessageAt := now }) ∧
    (∀ a, t.kind = .followUp a →
      (fireAiTask db t true now).messages = db.messages ++
        [{ doubtSession := t.sessionId, sender := none, senderRole := .system,
           messageText := "AI encountered an error processing your follow-up. Please try again.",
           attachmentUrl := none, createdAt := now }] ∧
      (fireAiTask db t true now).sessions = db.sessions) := by
  constructor
  · intro a b hk
    have hid : s.id = t.sessionId := findSession_id _ _ _ hfind
    constructor
    · simp [fireAiTask, hk]
    · simp only [fireAiTask, hk]
      exact findSession_updateSessionL _ _ _ _ hfind (by simp [hid])
  · intro a hk
    constructor
    · simp [fireAiTask, hk]
    · simp [fireAiTask, hk]

/-- Claim C5 (amended), witness: the initiate-path callback failing over
the concrete in_progress ai session persists the system message and
cancels the session. -/
theorem aiFailurePersistsSystemMessageWitness :
    (fireAiTask dbInProgressAi { sessionId := 0, kind := .initial "Asha" "q" } true 9).messages =
      dbInProgressAi.messages ++
        [{ doubtSession := 0, sender := none, senderRole := .system,
           messageText := "AI encountered an error. Please try again later or contact a trainer.",
           attachmentUrl := none, createdAt := 9 }] ∧
    findSession
      (fireAiTask dbInProgressAi { sessionId := 0, kind := .initial "Asha" "q" } true 9).sessions 0 =
      some { sessInProgressAi with status := .cancelled, lastMessageAt := 9 } :=
  (aiFailurePersistsSystemMessage dbInProgressAi
    { sessionId := 0, kind := .initial "Asha" "q" } 9 sessInProgressAi rfl).1 "Asha" "q" rfl

/-- Claim C6: an initiation whose student has a school name that resolves
to no school record fails with the school-not-found error and persists
nothing; a trainer-type initiation with a nonexistent trainer, a trainer
whose role is not trainer, or a nonexistent topic id fails with the
invalid-reference errors, likewise with the database unchanged. -/
theorem initiateReferenceFailures
    (env : Env) (db : DB) (studentId : Nat) (text : String) (att : Option String)
    (now : Nat) (student : UserRec) (schoolName : String)
    (htext : text ≠ "")
    (hstu : findUser env studentId = some student)
    (hsch : student.school = some schoolName) (hne : schoolName ≠ "") :
    (∀ doubtType trainerId topicId, doubtType ≠ "" →
      findSchool env schoolName = none →
      initiateDoubtSession env db studentId doubtType trainerId topicId text att now =
        (db, .error .schoolNotFound)) ∧
    (∀ schoolDoc tid topid, findSchool env schoolName = some schoolDoc →
      (findUser env tid = none →
        initiateDoubtSession env db studentId "trainer" (some tid) (some topid) text att now =
          (db, .error .invalidTrainer)) ∧
      (∀ tr, findUser env tid = some tr → tr.role ≠ .trainer →
        initiateDoubtSession env db studentId "trainer" (some tid) (some topid) text att now =
          (db, .error .invalidTrainer)) ∧
      (∀ tr, findUser env tid = some tr → tr.role = .trainer → topid ∉ env.topics →
        initiateDoubtSession env db studentId "trainer" (some tid) (some topid) text att now =
          (db, .error .invalidTopic))) := by
  refine ⟨?_, ?_⟩
  · intro doubtType trainerId topicId hdt hnone
    simp only [initiateDoubtSession, hstu, hsch, hnone]
    rw [if_neg (by push_neg; exact ⟨hdt, htext⟩), if_neg hne]
  · intro schoolDoc tid topid hsome
    refine ⟨?_, ?_, ?_⟩
    · intro htrnone
      simp only [initiateDoubtSession, hstu, hsch, hsome, htrnone]
      rw [if_neg (by push_neg; exact ⟨by decide, htext⟩), if_neg hne, if_pos trivial]
    · intro tr htr hrole
      simp only [initiateDoubtSession, hstu, hsch, hsome, htr]
      rw [if_neg (by push_neg; exact ⟨by decide, htext⟩), if_neg hne, if_pos trivial,
        if_pos hrole]
    · intro tr htr hrole hnotin
      simp only [initiateDoubtSession, hstu, hsch, hsome, htr]
      rw [if_neg (by push_neg; exact ⟨by decide, htext⟩), if_neg hne, if_pos trivial,
        if_neg (by simp [hrole]), if_pos hnotin]

/-- Claim C6, witness: the concrete student whose school name resolves to
no record fails with the school-not-found error and the empty database is
unchanged. -/
theorem initiateReferenceFailuresWitness :
    initiateDoubtSession exEnvNoSchool emptyDB 1 "ai" none none "q" none 3 =
      (emptyDB, .error .schoolNotFound) :=
  (initiateReferenceFailures exEnvNoSchool emptyDB 1 "q" none 3 exStudent "Green View"
    (by decide) rfl rfl (by decide)).1 "ai" none none (by decide) rfl

/-- Claim C7: a successful initiation creates exactly one session whose
status is pending for doubtType trainer and in_progress for doubtType
ai, and exactly one initial chat message whose sender is the initiating
student with senderRole student. -/
theorem initiateSuccessShape
    (env : Env) (db : DB) (studentId : Nat) (doubtType : String)
    (trainerId topicId : Option Nat) (text : String) (att : Option String)
    (now : Nat) (db2 : DB) (out : InitOut)
    (h : initiateDoubtSession env db studentId doubtType trainerId topicId text att now =
      (db2, .ok out)) :
    db2.messages = db.messages ++ [out.initialMessage] ∧
    out.initialMessage.sender = some studentId ∧
    out.initialMessage.senderRole = .student ∧
    ∃ s, db2.sessions = db.sessions ++ [s] ∧ s.id = out.sessionId ∧
      s.student = studentId ∧
      (s.doubtType = .trainer → s.status = .pending) ∧
      (s.doubtType = .ai → s.status = .in_progress) := by
  simp only [initiateDoubtSession] at h
  repeat' split at h
  all_goals simp only [Prod.mk.injEq] at h
  all_goals obtain ⟨hdb, hsnd⟩ := h
  all_goals injection hsnd
  all_goals rename_i hout
  all_goals subst hdb
  all_goals subst hout
  all_goals exact ⟨rfl, rfl, rfl, _, rfl, rfl, rfl, by simp, by simp⟩

/-- Claim C8: a successful send persists exactly one chat message and
updates the stored session: lastMessageAt becomes the send time, a
trainer reply to a pending session escalates the status to in_progress,
and a sender of any other role leaves a pending status pending. -/
theorem sendSuccessUpdatesSession
    (db : DB) (s : DoubtSession) (userId : Nat) (userRole : Role)
    (text : String) (att : Option String) (now : Nat) (db2 : DB) (m : ChatMessage)
    (hfind : findSession db.sessions s.id = some s)
    (h : sendDoubtMessage db (some s) userId userRole text att now = (db2, .ok m)) :
    db2.messages = db.messages ++ [m] ∧
    ∃ s2, findSession db2.sessions s.id = some s2 ∧ s2.lastMessageAt = now ∧
      ((userRole = .trainer ∧ s.status = .pending) → s2.status = .in_progress) ∧
      ((userRole ≠ .trainer ∧ s.status = .pending) → s2.status = .pending) := by
  simp only [sendDoubtMessage, sendCore] at h
  repeat' split at h
  all_goals simp only [Prod.mk.injEq] at h
  all_goals obtain ⟨hdb, hsnd⟩ := h
  all_goals injection hsnd
  all_goals rename_i hout
  all_goals subst hdb
  all_goals subst hout
  all_goals rename_i hval hcond hcase hnews
  · exact absurd hnews.2 (by simp)
  · refine ⟨by simp, _, findSession_updateSessionL _ _ _ _
        (findSession_updateSessionL _ _ _ _ hfind rfl) rfl, rfl, fun _ => rfl, ?_⟩
    rintro ⟨-, hp⟩
    rw [hp] at hcond
    simp at hcond
  · refine ⟨by simp, _, findSession_updateSessionL _ _ _ _ hfind rfl, rfl,
        fun _ => rfl, ?_⟩
    rintro ⟨hnt, -⟩
    rw [hcase.2] at hnews
    exact absurd hnews.1 (by simp)
  · refine ⟨by simp, _, findSession_updateSessionL _ _ _ _ hfind rfl, rfl, ?_, ?_⟩
    · intro htp
      exact absurd htp hnews
    · rintro ⟨-, hp⟩
      exact hp
  · refine ⟨by simp, _, findSession_updateSessionL _ _ _ _ hfind rfl, rfl,
        fun _ => rfl, ?_⟩
    rintro ⟨hnt, -⟩
    exact absurd hnews.1 hnt
  · refine ⟨by simp, _, findSession_updateSessionL _ _ _ _ hfind rfl, rfl, ?_, ?_⟩
    · intro htp
      exact absurd htp hnews
    · rintro ⟨-, hp⟩
      exact hp

/-- Claim C7, witness: the concrete trainer-type initiation creates a
pending session and one student message. -/
theorem initiateSuccessShapeWitness :
    (initiateDoubtSession exEnv emptyDB 1 "trainer" (some 2) (some 42) "q" none 3).1.messages =
      emptyDB.messages ++
        [{ doubtSession := 0, sender := some 1, senderRole := .student,
           messageText := "q", attachmentUrl := none, createdAt := 3 }] ∧
    ChatMessage.sender
      { doubtSession := 0, sender := some 1, senderRole := .student,
        messageText := "q", attachmentUrl := none, createdAt := 3 } = some 1 ∧
    ChatMessage.senderRole
      { doubtSession := 0, sender := some 1, senderRole := .student,
        messageText := "q", attachmentUrl := none, createdAt := 3 } = .student ∧
    ∃ s, (initiateDoubtSession exEnv emptyDB 1 "trainer" (some 2) (some 42) "q" none 3).1.sessions =
        emptyDB.sessions ++ [s] ∧ s.id = 0 ∧ s.student = 1 ∧
      (s.doubtType = .trainer → s.status = .pending) ∧
      (s.doubtType = .ai → s.status = .in_progress) :=
  initiateSuccessShape exEnv emptyDB 1 "trainer" (some 2) (some 42) "q" none 3
    (initiateDoubtSession exEnv emptyDB 1 "trainer" (some 2) (some 42) "q" none 3).1
    { sessionId := 0,
      initialMessage := { doubtSession := 0, sender := some 1, senderRole := .student,
                          messageText := "q", attachmentUrl := none, createdAt := 3 } }
    rfl

/-- Claim C8, witness: the concrete trainer reply to the pending trainer
session persists the message, bumps lastMessageAt, and escalates the
status. -/
theorem sendSuccessUpdatesSessionWitness :
    (sendDoubtMessage dbPendingTrainer (some sessPendingTrainer) 2 .trainer "reply" none 5).1.messages =
      dbPendingTrainer.messages ++
        [{ doubtSession := 0, sender := some 2, senderRole := .trainer,
           messageText := "reply", attachmentUrl := none, createdAt := 5 }] ∧
    ∃ s2,
      findSession
        (sendDoubtMessage dbPendingTrainer (some sessPendingTrainer) 2 .trainer "reply" none 5).1.sessions
        sessPendingTrainer.id = some s2 ∧
      s2.lastMessageAt = 5 ∧
      ((Role.trainer = Role.trainer ∧ sessPendingTrainer.status = .pending) →
        s2.status = .in_progress) ∧
      ((Role.trainer ≠ Role.trainer ∧ sessPendingTrainer.status = .pending) →
        s2.status = .pending) :=
  sendSuccessUpdatesSession dbPendingTrainer sessPendingTrainer 2 .trainer "reply" none 5
    (sendDoubtMessage dbPendingTrainer (some sessPendingTrainer) 2 .trainer "reply" none 5).1
    { doubtSession := 0, sender := some 2, senderRole := .trainer,
      messageText := "reply", attachmentUrl := none, createdAt := 5 }
    rfl rfl

/-- Claim C9: closing a session never removes a pending Simulated
Responder task, and a fired task always persists its ai reply (null
sender, ai role) and sets the session status to resolved and
lastMessageAt to the firing time — whatever the session status at firing
time, including closed. -/
theorem timerNotCancelledAndFires :
    (∀ db userId userRole sid, (closeRoute db userId userRole sid).1.tasks = db.tasks) ∧
    (∀ db t now s, findSession db.sessions t.sessionId = some s →
      (∃ m, (fireAiTask db t false now).messages = db.messages ++ [m] ∧
        m.senderRole = .ai ∧ m.sender = none) ∧
      findSession (fireAiTask db t false now).sessions t.sessionId =
        some { s with status := .resolved, lastMessageAt := now }) := by
  constructor
  · intro db userId userRole sid
    unfold closeRoute isParticipantInDoubtSession closeDoubtSession
    repeat' split
    all_goals rfl
  · intro db t now s hfind
    have hid : s.id = t.sessionId := findSession_id _ _ _ hfind
    constructor
    · cases hk : t.kind with
      | initial a b =>
        exact ⟨{ doubtSession := t.sessionId, sender := none, senderRole := .ai,
                 messageText := aiInitialAnswer a b, attachmentUrl := none,
                 createdAt := now }, by simp [fireAiTask, hk], rfl, rfl⟩
      | followUp a =>
        exact ⟨{ doubtSession := t.sessionId, sender := none, senderRole := .ai,
                 messageText := aiFollowUpAnswer a, attachmentUrl := none,
                 createdAt := now }, by simp [fireAiTask, hk], rfl, rfl⟩
    · simp only [fireAiTask]
      rw [if_neg (by simp)]
      exact findSession_updateSessionL _ _ _ _ hfind (by simp [hid])

/-- Claim C9, witness: firing the follow-up task over the concrete
session that was already closed still appends the ai reply and rewrites
the status to resolved. -/
theorem timerNotCancelledAndFiresWitness :
    (∃ m, (fireAiTask dbClosedAi { sessionId := 0, kind := .followUp "x" } false 9).messages =
        dbClosedAi.messages ++ [m] ∧ m.senderRole = .ai ∧ m.sender = none) ∧
    findSession
      (fireAiTask dbClosedAi { sessionId := 0, kind := .followUp "x" } false 9).sessions 0 =
      some { sessClosedAi with status := .resolved, lastMessageAt := 9 } :=
  timerNotCancelledAndFires.2 dbClosedAi { sessionId := 0, kind := .followUp "x" } 9
    sessClosedAi rfl
